import Mathlib

/-!
Shallow embedding of `crates/motsu/src/router.rs`: the Motsu VM router
registry.  The registry (`MOTSU_VM_ROUTERS`) is a global concurrent map from
a `VMRouter` key (thread id + contract address) to a `VMRouterStorage`
holding a type-erased router factory.  We model the map as a function
`VMRouter → Option VMRouterStorage` together with the set of keys whose
entry is currently held under an outstanding scoped access (the `RefMut`
returned by `access_storage`), since that lock state is what the
reentrancy-avoidance design of `route` is about.

Bytes (`Vec<u8>`) are modelled as `List Nat`; `ArbResult`
(`Result<Vec<u8>, Vec<u8>>`) as `Except (List Nat) (List Nat)`;
`ThreadId` and `Address` as opaque `Nat` identifiers (only structural
equality and hashing of them matter here).
-/

/-- `Vec<u8>` calldata, modelled as a list of byte values. -/
abbrev Calldata := List Nat

/-- `ArbResult = Result<Vec<u8>, Vec<u8>>` from `stylus_sdk`. -/
abbrev ArbResult := Except (List Nat) (List Nat)

/-- The dispatch interface: the `Router` trait of `router.rs` exposes one
operation `route(calldata) -> ArbResult`.  A handler is modelled by its
dispatch behaviour. -/
structure RouterHandler where
  route : Calldata → ArbResult

/-- Modelled from the spec: `crate::context::create_default_storage_type::<R>()`
(the source of this helper is outside `src/`).  Per spec section 4.4 the
concrete handler type is an external collaborator specified only at its
interface boundary, so a concrete type `R` is represented by the dispatch
behaviour its default construction yields, and default construction returns
exactly that freshly constructed handler. -/
def createDefaultStorageType (R : RouterHandler) : RouterHandler := R

/-- The `CreateRouter` trait object: `create(&self) -> Box<dyn Router>`.
`create` takes `&self` and `RouterFactory` has no interior mutability, so
`create` is a pure function of the factory. -/
structure CreateRouter where
  create : RouterHandler

/-- `RouterFactory::<R>` (a `PhantomData` struct) viewed through the
`CreateRouter` trait: `create` boxes `create_default_storage_type::<R>()`. -/
def routerFactory (R : RouterHandler) : CreateRouter :=
  { create := createDefaultStorageType R }

/-- A general, possibly stateful factory interface: `create` consumes and
returns an explicit factory state `σ`.  Used to express that the source
factory carries no mutable state between `create()` calls. -/
structure CreateRouterS (σ : Type) where
  create : σ → RouterHandler × σ

/-- `RouterFactory::<R>` as a stateful factory: its only "state" is the
`PhantomData` field, a zero-sized value modelled by `Unit`, and `create`
leaves it untouched. -/
def routerFactoryS (R : RouterHandler) : CreateRouterS Unit :=
  { create := fun s => (createDefaultStorageType R, s) }

/-- Run `n` successive `create()` calls on a stateful factory, threading the
factory state, and collect the produced handlers in call order. -/
def createRuns {σ : Type} (f : CreateRouterS σ) : σ → Nat → List RouterHandler
  | _, 0 => []
  | s, Nat.succ n =>
    let p := f.create s
    p.1 :: createRuns f p.2 n

/-- The registry key: `VMRouter { thread_id: ThreadId, contract_address: Address }`,
with `#[derive(Hash, Eq, PartialEq, Copy, Clone)]` — equality is structural
over both fields. -/
structure VMRouter where
  thread_id : Nat
  contract_address : Nat
deriving DecidableEq

/-- `VMRouter::new`. -/
def VMRouter.new (thread : Nat) (contract_address : Nat) : VMRouter :=
  { thread_id := thread, contract_address := contract_address }

/-- The derived `Hash` instance feeds both fields into the hasher in
declaration order; modelled as a structural combination of the two fields. -/
def VMRouter.hashKey (k : VMRouter) : Nat :=
  mixHash (UInt64.ofNat k.thread_id) (UInt64.ofNat k.contract_address) |>.toNat

/-- `VMRouterStorage { router_factory: Box<dyn CreateRouter> }`. -/
structure VMRouterStorage where
  router_factory : CreateRouter

/-- The state of the global `MOTSU_VM_ROUTERS` map: the key-value content,
plus the set of keys whose entry is currently held under an outstanding
scoped access from the current execution context. -/
structure RegState where
  map : VMRouter → Option VMRouterStorage
  locked : List VMRouter

/-- The fatal failures (panics) of the registry, per the error taxonomy:
duplicate registration (message carries the contract address), missing
registration, and illegal reentrant same-key access. -/
inductive RegErr where
  | duplicateInit (contract_address : Nat)
  | missingRegistration (k : VMRouter)
  | reentrantAccess (k : VMRouter)
deriving DecidableEq

/-- The text of each fatal failure; the duplicate-registration message
embeds the logical contract address, as the `panic!` in `init_storage` does. -/
def RegErr.message : RegErr → String
  | .duplicateInit a =>
      "contract router is already initialized - contract_address is " ++ toString a
  | .missingRegistration k =>
      "router is not initialized for contract " ++ toString k.contract_address
  | .reentrantAccess k =>
      "storage already locked for contract " ++ toString k.contract_address

/-- `VMRouter::exists`: `MOTSU_VM_ROUTERS.contains_key(&self)`. -/
def VMRouter.exists (k : VMRouter) (st : RegState) : Bool :=
  (st.map k).isSome

/-- Modelled from the spec: `MOTSU_VM_ROUTERS.access_storage(&self)` — the
`AccessStorage` helper lives in `crate::storage_access`, outside `src/`.
Per spec sections 4.3 and 7 it acquires exclusive scoped access to the entry
for the key, failing fatally if the lock is already held by the same
execution context (reentrant access) and failing fatally if no entry exists
(missing registration); on success the key becomes locked until the access
is dropped. -/
def accessStorage (k : VMRouter) (st : RegState) :
    Except RegErr (VMRouterStorage × RegState) :=
  if k ∈ st.locked then
    Except.error (RegErr.reentrantAccess k)
  else
    match st.map k with
    | none => Except.error (RegErr.missingRegistration k)
    | some v => Except.ok (v, { st with locked := k :: st.locked })

/-- `VMRouter::storage`: get scoped access to the entry for this key. -/
def VMRouter.storage (k : VMRouter) (st : RegState) :
    Except RegErr (VMRouterStorage × RegState) :=
  accessStorage k st

/-- `drop(storage)`: release the scoped access, unlocking the key. -/
def dropAccess (k : VMRouter) (st : RegState) : RegState :=
  { st with locked := st.locked.erase k }

/-- The first half of `VMRouter::route`, up to the point the handler is
invoked: acquire scoped access via `storage()`, `create()` a fresh handler
from the stored factory, then `drop(storage)` releasing the access.  Returns
the fresh handler together with the registry state at the invocation point. -/
def VMRouter.fetchHandler (k : VMRouter) (st : RegState) :
    Except RegErr (RouterHandler × RegState) :=
  match VMRouter.storage k st with
  | .error e => .error e
  | .ok (s, st1) => .ok (s.router_factory.create, dropAccess k st1)

/-- `VMRouter::route`: fetch a fresh handler (acquire, create, release) and
invoke its dispatch on the calldata, returning its result unchanged.  A
registry-level failure leaves the state as it was. -/
def VMRouter.route (k : VMRouter) (calldata : Calldata) (st : RegState) :
    Except RegErr ArbResult × RegState :=
  match VMRouter.fetchHandler k st with
  | .error e => (.error e, st)
  | .ok (router, st2) => (.ok (router.route calldata), st2)

/-- `VMRouter::init_storage::<ST>`: insert a `VMRouterStorage` holding
`RouterFactory::<ST>` for this key; `DashMap::insert` replaces any old value
and returns it, and if an old value was present the code then panics with a
message naming the contract address.  The concrete type `ST` is represented
by the handler its default construction produces. -/
def VMRouter.init_storage (k : VMRouter) (R : RouterHandler) (st : RegState) :
    Except RegErr Unit × RegState :=
  let contract_address := k.contract_address
  let old := st.map k
  let st1 : RegState :=
    { st with
      map := fun k2 =>
        if k2 = k then some { router_factory := routerFactory R } else st.map k2 }
  if old.isSome then
    (Except.error (RegErr.duplicateInit contract_address), st1)
  else
    (Except.ok (), st1)

/-- `VMRouter::reset_storage`: `MOTSU_VM_ROUTERS.remove(&self)`. -/
def VMRouter.reset_storage (k : VMRouter) (st : RegState) : RegState :=
  { st with map := fun k2 => if k2 = k then none else st.map k2 }

/-!
Concrete fixtures used by witnesses and counterexamples.
-/

/-- A concrete registry key: thread 0, contract address 1. -/
def kA : VMRouter := VMRouter.new 0 1

/-- A concrete handler whose dispatch always returns the byte `[1]`. -/
def handlerOne : RouterHandler := { route := fun _ => Except.ok [1] }

/-- A concrete handler whose dispatch always returns the byte `[2]`. -/
def handlerTwo : RouterHandler := { route := fun _ => Except.ok [2] }

/-- A concrete registry holding only `kA`, registered with `handlerOne`'s
factory, with no outstanding scoped access. -/
def stInitOne : RegState :=
  { map := fun k2 =>
      if k2 = kA then some { router_factory := routerFactory handlerOne } else none,
    locked := [] }

/-- An empty concrete registry. -/
def stEmpty : RegState :=
  { map := fun _ => none, locked := [] }

/-- Claim C1: for a key registered with factory `f`, `route` creates a
handler via `f.create()` and returns exactly that fresh handler's
dispatch result on the payload, unchanged — in particular a handler-level
failure (an `Except.error` value of `ArbResult`) is propagated unchanged,
since the returned value is the handler's result itself. -/
theorem route_pass_through (k : VMRouter) (f : CreateRouter) (c : Calldata)
    (st : RegState)
    (hmem : st.map k = some { router_factory := f })
    (hlock : k ∉ st.locked) :
    VMRouter.route k c st = (Except.ok (f.create.route c), st) := by
  unfold VMRouter.route VMRouter.fetchHandler VMRouter.storage accessStorage
  simp [hmem, hlock, dropAccess]

theorem route_pass_through_witness :
    VMRouter.route kA [7] stInitOne =
      (Except.ok ((routerFactory handlerOne).create.route [7]), stInitOne) :=
  route_pass_through kA (routerFactory handlerOne) [7] stInitOne rfl (by decide)

/-- Claim C2: `route` releases its scoped access before invoking the
handler: at the handler-invocation point (the state `fetchHandler` pairs
with the fresh handler) the registry state is exactly the pre-call state —
the key is no longer locked — so a nested `route` for the same key from the
same execution context, issued during the handler's own dispatch, succeeds
(returns the fresh nested handler's result) rather than failing with the
lock-already-held fatal error. -/
theorem route_releases_before_invoke (k : VMRouter) (st : RegState)
    (h : RouterHandler) (st2 : RegState) (c : Calldata)
    (hfetch : VMRouter.fetchHandler k st = .ok (h, st2)) :
    st2 = st ∧ VMRouter.route k c st2 = (Except.ok (h.route c), st2) := by
  unfold VMRouter.fetchHandler VMRouter.storage accessStorage at hfetch
  by_cases hl : k ∈ st.locked
  · simp [hl] at hfetch
  · simp [hl] at hfetch
    cases hmk : st.map k with
    | none => simp [hmk] at hfetch
    | some v =>
      simp [hmk] at hfetch
      obtain ⟨hh, hst⟩ := hfetch
      have hst2 : st2 = st := by
        simp [← hst, dropAccess]
      refine ⟨hst2, ?_⟩
      rw [hst2, ← hh]
      exact route_pass_through k v.router_factory c st hmk hl

theorem route_releases_before_invoke_witness :
    VMRouter.route kA [9] stInitOne =
      (Except.ok (((routerFactory handlerOne).create).route [9]), stInitOne) :=
  (route_releases_before_invoke kA stInitOne
    ((routerFactory handlerOne).create) stInitOne [9] rfl).2

/-- Claim C3, counterexample: the claim states that at the point the
duplicate-registration failure is raised, the registry still holds the
originally registered factory for the key.  On the code this is false:
`init_storage` calls `DashMap::insert`, which replaces the old value and
returns it, and only then panics.  At the concrete input — `kA` registered
with `handlerOne`'s factory, then `init` again with `handlerTwo` — the
failure is raised, yet the stored entry for `kA` is no longer the original
one. -/
theorem init_dup_no_overwrite_counterexample :
    (VMRouter.init_storage kA handlerTwo stInitOne).1 =
        Except.error (RegErr.duplicateInit 1) ∧
    ¬ ((VMRouter.init_storage kA handlerTwo stInitOne).2.map kA =
        stInitOne.map kA) := by
  constructor
  · rfl
  · intro heq
    have hnew : (VMRouter.init_storage kA handlerTwo stInitOne).2.map kA =
        some { router_factory := routerFactory handlerTwo } := rfl
    have hold : stInitOne.map kA =
        some { router_factory := routerFactory handlerOne } := rfl
    rw [hnew, hold] at heq
    have hroute := congrArg
      (fun o => Option.map (fun e => e.router_factory.create.route []) o) heq
    simp [routerFactory, createDefaultStorageType, handlerOne, handlerTwo]
      at hroute

/-- Claim C3, amended: calling `init(k, f')` again for an already-present
key raises the duplicate-registration failure (naming the contract
address), but the stored entry is overwritten first: at the point the
failure is raised the registry holds the newly supplied factory for `k`,
not the original one (`DashMap::insert` replaces, then the old value is
checked). -/
theorem init_dup_error_after_overwrite (k : VMRouter) (Rnew : RouterHandler)
    (e : VMRouterStorage) (st : RegState) (hold : st.map k = some e) :
    (VMRouter.init_storage k Rnew st).1 =
        Except.error (RegErr.duplicateInit k.contract_address) ∧
    (VMRouter.init_storage k Rnew st).2.map k =
        some { router_factory := routerFactory Rnew } := by
  unfold VMRouter.init_storage
  simp [hold]

theorem init_dup_error_after_overwrite_witness :
    (VMRouter.init_storage kA handlerTwo stInitOne).1 =
        Except.error (RegErr.duplicateInit kA.contract_address) ∧
    (VMRouter.init_storage kA handlerTwo stInitOne).2.map kA =
        some { router_factory := routerFactory handlerTwo } :=
  init_dup_error_after_overwrite kA handlerTwo
    { router_factory := routerFactory handlerOne } stInitOne rfl

/-- Claim C4: when no entry exists for `k`, `init(k, f)` succeeds and
inserts an entry visible to `exists` (now true), `route` (which now
dispatches via the freshly stored factory), and `reset` (which removes it);
when an entry already exists, `init` fails with the duplicate-registration
error whose message embeds the logical contract address. -/
theorem init_insert_or_duplicate (k : VMRouter) (R Rdup : RouterHandler)
    (c : Calldata) (st : RegState) :
    (st.map k = none →
      (VMRouter.init_storage k R st).1 = Except.ok () ∧
      VMRouter.exists k (VMRouter.init_storage k R st).2 = true ∧
      (VMRouter.init_storage k R st).2.map k =
        some { router_factory := routerFactory R } ∧
      (k ∉ st.locked →
        (VMRouter.route k c (VMRouter.init_storage k R st).2).1 =
          Except.ok ((routerFactory R).create.route c)) ∧
      (VMRouter.reset_storage k (VMRouter.init_storage k R st).2).map k =
        none) ∧
    ((st.map k).isSome = true →
      (VMRouter.init_storage k Rdup st).1 =
        Except.error (RegErr.duplicateInit k.contract_address) ∧
      ∃ pre, (RegErr.duplicateInit k.contract_address).message =
        pre ++ toString k.contract_address) := by
  constructor
  · intro habs
    have hmap : (VMRouter.init_storage k R st).2.map k =
        some { router_factory := routerFactory R } := by
      unfold VMRouter.init_storage
      simp [habs]
    refine ⟨?_, ?_, hmap, ?_, ?_⟩
    · unfold VMRouter.init_storage
      simp [habs]
    · simp [VMRouter.exists, hmap]
    · intro hlock
      have hlock2 : k ∉ (VMRouter.init_storage k R st).2.locked := by
        unfold VMRouter.init_storage
        simpa [habs] using hlock
      rw [route_pass_through k (routerFactory R) c _ hmap hlock2]
    · simp [VMRouter.reset_storage]
  · intro hsome
    refine ⟨?_, "contract router is already initialized - contract_address is ",
      rfl⟩
    unfold VMRouter.init_storage
    simp [hsome]

theorem init_insert_or_duplicate_witness :
    (VMRouter.init_storage kA handlerOne stEmpty).1 = Except.ok () ∧
    VMRouter.exists kA (VMRouter.init_storage kA handlerOne stEmpty).2 = true :=
  have h := (init_insert_or_duplicate kA handlerOne handlerTwo [] stEmpty).1 rfl
  ⟨h.1, h.2.1⟩

/-- Claim C5: for a key with no entry (never initialised, or removed),
`exists` returns false — it is a pure predicate on the registry content,
with no side effects by construction — and `route` fails fatally with the
missing-registration error instead of returning a result, leaving the
state untouched. -/
theorem never_inited_exists_false_route_fatal (k : VMRouter) (c : Calldata)
    (st : RegState) (habs : st.map k = none) :
    VMRouter.exists k st = false ∧
    (k ∉ st.locked →
      VMRouter.route k c st =
        (Except.error (RegErr.missingRegistration k), st)) := by
  constructor
  · simp [VMRouter.exists, habs]
  · intro hlock
    unfold VMRouter.route VMRouter.fetchHandler VMRouter.storage accessStorage
    simp [habs, hlock]

theorem never_inited_exists_false_route_fatal_witness :
    VMRouter.exists kA stEmpty = false ∧
    VMRouter.route kA [3] stEmpty =
      (Except.error (RegErr.missingRegistration kA), stEmpty) :=
  have h := never_inited_exists_false_route_fatal kA [3] stEmpty rfl
  ⟨h.1, h.2 (by decide)⟩

/-- Claim C6: `reset(k)` removes the entry for `k` when present and is a
no-op (state unchanged, no error) when absent; after `init(k, f)` then
`reset(k)`, `exists k` is false and a subsequent `init(k, f'')` succeeds,
so the slot is reusable. -/
theorem reset_removes_and_slot_reusable (k : VMRouter)
    (R Rnew : RouterHandler) (st : RegState) :
    (VMRouter.reset_storage k st).map k = none ∧
    (st.map k = none → VMRouter.reset_storage k st = st) ∧
    VMRouter.exists k
      (VMRouter.reset_storage k (VMRouter.init_storage k R st).2) = false ∧
    (VMRouter.init_storage k Rnew
      (VMRouter.reset_storage k (VMRouter.init_storage k R st).2)).1 =
        Except.ok () := by
  have hrm : ∀ st2 : RegState, (VMRouter.reset_storage k st2).map k = none := by
    intro st2
    simp [VMRouter.reset_storage]
  refine ⟨hrm st, ?_, ?_, ?_⟩
  · intro habs
    have hmap : (fun k2 => if k2 = k then none else st.map k2) = st.map := by
      funext k2
      by_cases hk : k2 = k
      · simp [hk, habs]
      · simp [hk]
    show { st with map := fun k2 => if k2 = k then none else st.map k2 } = st
    rw [hmap]
  · simp [VMRouter.exists, hrm]
  · unfold VMRouter.init_storage
    simp [hrm]

theorem reset_removes_and_slot_reusable_witness :
    (VMRouter.reset_storage kA stInitOne).map kA = none ∧
    VMRouter.reset_storage kA stEmpty = stEmpty :=
  ⟨(reset_removes_and_slot_reusable kA handlerOne handlerTwo stInitOne).1,
   (reset_removes_and_slot_reusable kA handlerOne handlerTwo stEmpty).2.1 rfl⟩

/-- Claim C7: equality of `VMRouter` keys is structural over both fields —
two keys are equal iff their thread ids match and their contract addresses
match — and equal keys hash equally. -/
theorem vmrouter_eq_structural_hash (k1 k2 : VMRouter) :
    (k1 = k2 ↔
      k1.thread_id = k2.thread_id ∧
        k1.contract_address = k2.contract_address) ∧
    (k1 = k2 → VMRouter.hashKey k1 = VMRouter.hashKey k2) := by
  constructor
  · constructor
    · rintro rfl
      exact ⟨rfl, rfl⟩
    · rintro ⟨h1, h2⟩
      cases k1
      cases k2
      simp_all
  · rintro rfl
    rfl

theorem vmrouter_eq_structural_hash_witness :
    (VMRouter.new 0 1 = VMRouter.new 0 1 ↔
      (VMRouter.new 0 1).thread_id = (VMRouter.new 0 1).thread_id ∧
        (VMRouter.new 0 1).contract_address =
          (VMRouter.new 0 1).contract_address) ∧
    VMRouter.hashKey (VMRouter.new 0 1) = VMRouter.hashKey (VMRouter.new 0 1) :=
  have h := vmrouter_eq_structural_hash (VMRouter.new 0 1) (VMRouter.new 0 1)
  ⟨h.1, h.2 rfl⟩

/-- Claim C8: the registered factory retains no shared mutable state
between `create()` calls — its only state is the zero-sized `PhantomData`
field — so a run of `n` successive `create()` calls yields the same
type-determined default construction every time, independently of how many
calls preceded each (two-run determinism of `create()`). -/
theorem routerFactory_create_deterministic (R : RouterHandler) (n : Nat) :
    createRuns (routerFactoryS R) () n =
      List.replicate n (createDefaultStorageType R) := by
  induction n with
  | zero => rfl
  | succ m ih =>
    simp [createRuns, routerFactoryS, List.replicate] at ih ⊢
    exact ih

/-- Claim C9: every registry operation on a key `k` — `init(k, _)` (whether
it succeeds or fails as duplicate), `reset(k)`, and `route(k, _)` (whether
it succeeds or fails) — leaves the presence and stored factory of every
other key `k2 ≠ k` unchanged. -/
theorem ops_frame_other_keys (k k2 : VMRouter) (R : RouterHandler)
    (c : Calldata) (st : RegState) (hne : k2 ≠ k) :
    (VMRouter.init_storage k R st).2.map k2 = st.map k2 ∧
    (VMRouter.reset_storage k st).map k2 = st.map k2 ∧
    (VMRouter.route k c st).2.map k2 = st.map k2 := by
  refine ⟨?_, ?_, ?_⟩
  · unfold VMRouter.init_storage
    by_cases hs : (st.map k).isSome
    · simp [hs, hne]
    · simp [hs, hne]
  · simp [VMRouter.reset_storage, hne]
  · unfold VMRouter.route VMRouter.fetchHandler VMRouter.storage accessStorage
    by_cases hl : k ∈ st.locked
    · simp [hl]
    · cases hmk : st.map k with
      | none => simp [hl, hmk]
      | some v => simp [hl, hmk, dropAccess]

theorem ops_frame_other_keys_witness :
    (VMRouter.init_storage kA handlerTwo stInitOne).2.map
        (VMRouter.new 0 2) = stInitOne.map (VMRouter.new 0 2) ∧
    (VMRouter.reset_storage kA stInitOne).map (VMRouter.new 0 2) =
        stInitOne.map (VMRouter.new 0 2) ∧
    (VMRouter.route kA [5] stInitOne).2.map (VMRouter.new 0 2) =
        stInitOne.map (VMRouter.new 0 2) :=
  ops_frame_other_keys kA (VMRouter.new 0 2) handlerTwo [5] stInitOne
    (by decide)

/-- Claim C10: `route(k, payload)` on a key with no entry fails with the
missing-registration error before any handler is created — the error is
produced by the entry-access step, upstream of `create()` — and it leaves
the registry completely unchanged: the returned state is exactly the
pre-call state, so every key's presence and stored factory (including the
absence of `k`) is as before. -/
theorem route_missing_registration_atomic (k : VMRouter) (c : Calldata)
    (st : RegState) (habs : st.map k = none) (hlock : k ∉ st.locked) :
    VMRouter.route k c st =
        (Except.error (RegErr.missingRegistration k), st) ∧
    ∀ k2, (VMRouter.route k c st).2.map k2 = st.map k2 := by
  have hroute : VMRouter.route k c st =
      (Except.error (RegErr.missingRegistration k), st) := by
    unfold VMRouter.route VMRouter.fetchHandler VMRouter.storage accessStorage
    simp [habs, hlock]
  exact ⟨hroute, fun k2 => by rw [hroute]⟩

theorem route_missing_registration_atomic_witness :
    VMRouter.route (VMRouter.new 0 2) [4] stInitOne =
        (Except.error (RegErr.missingRegistration (VMRouter.new 0 2)),
         stInitOne) ∧
    (VMRouter.route (VMRouter.new 0 2) [4] stInitOne).2.map kA =
        stInitOne.map kA :=
  have h := route_missing_registration_atomic (VMRouter.new 0 2) [4]
    stInitOne rfl (by decide)
  ⟨h.1, h.2 kA⟩
